import Mathlib

/-!
Shallow embedding of the Smart-Events application (Django app `events`):
the data model of `events/models.py` and the request handlers of
`events/views.py`, with theorems checking the specification's claims.

Timestamps are modelled as integers, database rows as lists of structures,
and each request handler as a pure function from the store state (plus the
request's parameters and the current time) to the next state and an outcome.
-/

namespace SmartEvents

/-- The four values of `Event.TipoEvento`. -/
def CHARLA : String := "CHARLA"

def TALLER : String := "TALLER"

def FERIA : String := "FERIA"

def CONCIERTO : String := "CONCIERTO"

def tipo_choices : List String := [CHARLA, TALLER, FERIA, CONCIERTO]

/-- Row of the `Event` table (`events/models.py`).  `fecha_inicio` and
`fecha_fin` are non-nullable datetime columns, modelled as integers;
`capacidad` is a nullable integer column; `precio` a nullable decimal,
modelled as a rational. -/
structure Event where
  id : Nat
  nombre : String
  descripcion : String
  tipo : String
  fecha_inicio : Int
  fecha_fin : Int
  lugar : String
  activo : Bool
  destacado : Bool
  capacidad : Option Int
  precio : Option ℚ
deriving DecidableEq, Repr

/-- Row of the `EventRegistration` table: unique pair (evento, usuario),
with a primary key and the creation timestamp `registrado_en`. -/
structure EventRegistration where
  id : Nat
  evento : Nat
  usuario : Nat
  registrado_en : Int
deriving DecidableEq, Repr

/-- The relational store, restricted to the tables the claims touch.
`nextRegId` supplies fresh primary keys for new registrations. -/
structure State where
  events : List Event
  registrations : List EventRegistration
  nextRegId : Nat
deriving DecidableEq, Repr

/-- Model of `self.registrations.count()` — number of registration rows whose
foreign key points at this event (`Event.total_registrados`). -/
def total_registrados (s : State) (e : Event) : Nat :=
  (s.registrations.filter (fun r => r.evento == e.id)).length

/-- Model of `Event.espacios_disponibles`: `None` when `capacidad` is `None`,
otherwise `max(0, capacidad - registros_count)`. -/
def espacios_disponibles (s : State) (e : Event) : Option Int :=
  match e.capacidad with
  | none => none
  | some c => some (max 0 (c - (total_registrados s e : Int)))

/-- Model of `Event.esta_lleno`: `espacios is not None and espacios == 0`. -/
def esta_lleno (s : State) (e : Event) : Bool :=
  match espacios_disponibles s e with
  | none => false
  | some k => k == 0

/-- Model of `Event.esta_activo`: `self.activo and self.fecha_fin >= timezone.now()`. -/
def esta_activo (e : Event) (now : Int) : Bool :=
  e.activo && decide (now ≤ e.fecha_fin)

/-- Model of `Event.puede_registrarse`: `self.esta_activo() and not self.esta_lleno()`. -/
def puede_registrarse (s : State) (e : Event) (now : Int) : Bool :=
  esta_activo e now && !(esta_lleno s e)

/-- Model of `Event.porcentaje_ocupacion`: `None` when `capacidad` is `None`,
`0.0` when `capacidad == 0`, else `(total_registrados / capacidad) * 100`. -/
def porcentaje_ocupacion (s : State) (e : Event) : Option ℚ :=
  match e.capacidad with
  | none => none
  | some c =>
    if c = 0 then some 0
    else some (((total_registrados s e : ℚ) / (c : ℚ)) * 100)

def msg_fecha_fin : String := "La fecha de fin debe ser posterior a la fecha de inicio."

def msg_capacidad : String := "La capacidad debe ser mayor a 0."

def msg_precio : String := "El precio no puede ser negativo."

/-- Model of `Event.clean`: validation run before every save.  Raises (returns
`.error`) on `fecha_fin <= fecha_inicio`, on `capacidad < 1` when set, and
on `precio < 0` when set, in that order.  The source guards the date check
with `if self.fecha_inicio and self.fecha_fin`; both columns are
non-nullable datetimes (always truthy), so the guard always holds here. -/
def event_clean (e : Event) : Except String Unit :=
  if e.fecha_fin ≤ e.fecha_inicio then .error msg_fecha_fin
  else if (match e.capacidad with | some c => decide (c < 1) | none => false) then .error msg_capacidad
  else if (match e.precio with | some p => decide (p < 0) | none => false) then .error msg_precio
  else .ok ()

/-- Model of `Event.save`: runs `clean()` and only then persists the row. -/
def event_save (s : State) (e : Event) : Except String State :=
  match event_clean e with
  | .error m => .error m
  | .ok _ => .ok { s with events := e :: s.events }

/-- Model of `EventRegistration.objects.filter(evento=..., usuario=...).exists()`. -/
def registration_exists (s : State) (eid uid : Nat) : Bool :=
  s.registrations.any (fun r => r.evento == eid && r.usuario == uid)

def msg_lleno : String := "El evento está lleno."

def msg_no_activo : String := "El evento no está activo o ya finalizó."

def msg_ya_registrado_model : String := "El usuario ya está registrado en este evento."

/-- Model of `EventRegistration.clean` on an unsaved row (`self.pk` unset): rejects
when the event does not accept registrations (full, or not active), then
rejects a duplicate (evento, usuario) pair. -/
def registration_clean (s : State) (evento : Event) (uid : Nat) (now : Int) :
    Except String Unit :=
  if !(puede_registrarse s evento now) && esta_lleno s evento then .error msg_lleno
  else if !(puede_registrarse s evento now) && !(esta_activo evento now) then .error msg_no_activo
  else if registration_exists s evento.id uid then .error msg_ya_registrado_model
  else .ok ()

/-- Model of `EventRegistration.objects.create(...)`: `save` runs `clean` and then
inserts the row with a fresh primary key and `registrado_en = now`. -/
def registration_create (s : State) (evento : Event) (uid : Nat) (now : Int) :
    Except String State :=
  match registration_clean s evento uid now with
  | .error m => .error m
  | .ok _ => .ok { s with
      registrations := ⟨s.nextRegId, evento.id, uid, now⟩ :: s.registrations,
      nextRegId := s.nextRegId + 1 }

/-- Model of `get_object_or_404(Event, id=event_id, activo=True)`: the event with the
requested id whose `activo` flag is set, if any. -/
def findActiveEvent (s : State) (eid : Nat) : Option Event :=
  s.events.find? (fun e => e.id == eid && e.activo)

/-- Model of `EventRegistration.objects.filter(evento=..., usuario=...).first()`:
the first matching row under the model's default ordering
`["-registrado_en"]` (newest first). -/
def firstRegistration (s : State) (eid uid : Nat) : Option EventRegistration :=
  (List.insertionSort (fun a b => b.registrado_en ≤ a.registrado_en)
    (s.registrations.filter (fun r => r.evento == eid && r.usuario == uid))).head?

/-- Severity of a flash message (`django.contrib.messages`). -/
inductive Level
  | success
  | info
  | warning
  | error
deriving DecidableEq, Repr

/-- Outcome of `EventRegisterView.post`: redirect to the login page, an
HTTP 404, or a redirect back to the event detail page with one flash
message. -/
inductive RegisterOutcome
  | redirectLogin (level : Level) (msg : String)
  | notFound
  | redirectDetail (level : Level) (msg : String)
deriving DecidableEq, Repr

def msg_login_requerido : String := "Debes iniciar sesión para registrarte en un evento."

def msg_cancelado (nombre : String) : String := "Se canceló tu registro en " ++ nombre ++ "."

def msg_sin_registro : String := "No encontré un registro tuyo para cancelar."

def msg_ya_registrado (nombre : String) : String := "Ya estás registrado en " ++ nombre ++ "."

def msg_evento_lleno (nombre : String) : String := "El evento " ++ nombre ++ " está lleno."

def msg_no_acepta (nombre : String) : String := "El evento " ++ nombre ++ " no acepta registros."

def msg_registrado (nombre : String) : String :=
  "Te has registrado exitosamente en " ++ nombre ++ "."

def msg_registro_fallo : String := "No fue posible completar el registro. Intenta nuevamente."

/-- Model of `EventRegisterView.post` (`events/views.py`): authentication check,
event lookup (404 when the id is missing or the `activo` flag is unset),
the cancel branch (delete the first matching registration if any), the
already-registered check, the `puede_registrarse` check, and finally the
creation of the registration, reporting a generic failure if the model
validation inside `create` rejects it. -/
def eventRegisterPost (s : State) (auth : Bool) (uid eid : Nat) (cancel : Bool)
    (now : Int) : State × RegisterOutcome :=
  if !auth then (s, .redirectLogin .error msg_login_requerido)
  else match findActiveEvent s eid with
  | none => (s, .notFound)
  | some evento =>
    if cancel then
      match firstRegistration s evento.id uid with
      | some registro =>
        ({ s with registrations := s.registrations.filter (fun r => r.id != registro.id) },
          (.redirectDetail .success (msg_cancelado evento.nombre)))
      | none => (s, .redirectDetail .info msg_sin_registro)
    else if registration_exists s evento.id uid then
      (s, .redirectDetail .info (msg_ya_registrado evento.nombre))
    else if !(puede_registrarse s evento now) then
      if esta_lleno s evento then
        (s, .redirectDetail .error (msg_evento_lleno evento.nombre))
      else
        (s, .redirectDetail .error (msg_no_acepta evento.nombre))
    else
      match registration_create s evento uid now with
      | .ok s2 => (s2, .redirectDetail .success (msg_registrado evento.nombre))
      | .error _ => (s, .redirectDetail .error msg_registro_fallo)

/-- Outcome of `EventDetailView.get`: 404 or a rendered page recording
whether the current user is registered (`ya_registrado`). -/
inductive DetailOutcome
  | notFound
  | ok (ya_registrado : Bool)
deriving DecidableEq, Repr

/-- Model of `EventDetailView.get`: `get_object_or_404(Event, id=event_id,
activo=True)`, then `ya_registrado` is true when the user is authenticated
and a registration row for (evento, user) exists. -/
def eventDetailGet (s : State) (auth : Bool) (uid eid : Nat) : DetailOutcome :=
  match findActiveEvent s eid with
  | none => .notFound
  | some evento => .ok (auth && registration_exists s evento.id uid)

/-- The annotation `num_registros=Count("registrations")`. -/
def num_registros (s : State) (e : Event) : Nat :=
  total_registrados s e

/-- Model of `if tipo_evento:` — the query-string filter is inert when empty. -/
def tipoMatches (tipo : String) (e : Event) : Bool :=
  tipo == "" || e.tipo == tipo

/-- Context rendered by `EventListView.get`. -/
structure ListContext where
  destacados : List Event
  upcoming : List Event
  populares : List Event
  tipos_eventos : List (String × Nat)
  total_eventos : Nat
  selected_tipo : String
deriving Repr

/-- Model of `EventListView.get` (`events/views.py`): base query of active events,
optionally narrowed by type; featured events ordered by `-fecha_inicio`
capped at 4; upcoming events (`fecha_inicio >= now`) ordered by
`fecha_inicio` capped at 6; popular events over all active events
(ignoring the type filter) ordered by `-num_registros` capped at 5;
per-type counts of active events and the total of active events. -/
def eventListGet (s : State) (tipo : String) (now : Int) : ListContext :=
  let eventosQuery := s.events.filter (fun e => e.activo && tipoMatches tipo e)
  let destacados :=
    (List.insertionSort (fun a b => b.fecha_inicio ≤ a.fecha_inicio)
      (eventosQuery.filter (fun e => e.destacado))).take 4
  let upcoming :=
    (List.insertionSort (fun a b => a.fecha_inicio ≤ b.fecha_inicio)
      (eventosQuery.filter (fun e => now ≤ e.fecha_inicio))).take 6
  let populares :=
    (List.insertionSort (fun a b => num_registros s b ≤ num_registros s a)
      (s.events.filter (fun e => e.activo))).take 5
  let tipos_eventos := tipo_choices.map
    (fun t => (t, (s.events.filter (fun e => e.activo && e.tipo == t)).length))
  { destacados := destacados
    upcoming := upcoming
    populares := populares
    tipos_eventos := tipos_eventos
    total_eventos := (s.events.filter (fun e => e.activo)).length
    selected_tipo := tipo }

/-! ## Test fixtures used by witness theorems -/

/-- A sample event with capacity 2, over-subscribed in `st1`. -/
def ev1 : Event :=
  { id := 1
    nombre := "Charla de Lean"
    descripcion := "Una charla"
    tipo := CHARLA
    fecha_inicio := 0
    fecha_fin := 10
    lugar := "Aula 1"
    activo := true
    destacado := false
    capacidad := some 2
    precio := some 5 }

/-- A store holding `ev1` and three registrations for it. -/
def st1 : State :=
  { events := [ev1]
    registrations := [⟨1, 1, 7, 5⟩, ⟨2, 1, 8, 6⟩, ⟨3, 1, 9, 7⟩]
    nextRegId := 4 }

/-- The database uniqueness constraint `unique_together = ("evento",
"usuario")`: the (evento, usuario) pairs of the registration rows are
pairwise distinct. -/
def regPairsNodup (s : State) : Prop :=
  (s.registrations.map (fun r => (r.evento, r.usuario))).Nodup

/-- Primary keys of the registration rows are pairwise distinct. -/
def regIdsNodup (s : State) : Prop :=
  (s.registrations.map (fun r => r.id)).Nodup

/-- Classifier: the outcome is a detail redirect with an `info` message. -/
def isInfoOutcome : RegisterOutcome → Bool
  | .redirectDetail .info _ => true
  | _ => false

/-- Classifier: the outcome is a detail redirect with a `success` message. -/
def isSuccessOutcome : RegisterOutcome → Bool
  | .redirectDetail .success _ => true
  | _ => false

/-- An event whose `activo` flag is unset. -/
def evInactivo : Event :=
  { id := 2
    nombre := "Taller pausado"
    descripcion := "Un taller"
    tipo := TALLER
    fecha_inicio := 0
    fecha_fin := 10
    lugar := "Aula 2"
    activo := false
    destacado := false
    capacidad := none
    precio := none }

/-- A store whose only event is inactive yet holds a registration for it. -/
def stC3 : State :=
  { events := [evInactivo]
    registrations := [⟨1, 2, 7, 0⟩]
    nextRegId := 2 }

/-- An event flagged active whose `fecha_fin` already passed at time 0. -/
def evPast : Event :=
  { id := 5
    nombre := "Feria terminada"
    descripcion := "Una feria"
    tipo := FERIA
    fecha_inicio := -5
    fecha_fin := -1
    lugar := "Patio"
    activo := true
    destacado := false
    capacidad := none
    precio := none }

/-- A store whose only event is flagged active but already ended. -/
def stC5 : State :=
  { events := [evPast]
    registrations := []
    nextRegId := 1 }

/-- An event flagged active, already ended, with capacity 1. -/
def evFull : Event :=
  { id := 4
    nombre := "Concierto lleno"
    descripcion := "Un concierto"
    tipo := CONCIERTO
    fecha_inicio := -20
    fecha_fin := -10
    lugar := "Teatro"
    activo := true
    destacado := false
    capacidad := some 1
    precio := none }

/-- A store where `evFull` is both full and past its end, and user 7 is
registered on it. -/
def stFull : State :=
  { events := [evFull]
    registrations := [⟨1, 4, 7, -15⟩]
    nextRegId := 2 }

/-- The empty query-string filter (`request.GET.get("tipo", "")`). -/
def noTipo : String := ""

/-- An active featured talk starting in the future. -/
def evA : Event :=
  { id := 10
    nombre := "Charla A"
    descripcion := "A"
    tipo := CHARLA
    fecha_inicio := 5
    fecha_fin := 6
    lugar := "Sala A"
    activo := true
    destacado := true
    capacidad := none
    precio := none }

/-- An active workshop starting in the future with two registrations. -/
def evB : Event :=
  { id := 11
    nombre := "Taller B"
    descripcion := "B"
    tipo := TALLER
    fecha_inicio := 3
    fecha_fin := 4
    lugar := "Sala B"
    activo := true
    destacado := false
    capacidad := some 10
    precio := none }

/-- An inactive talk. -/
def evC : Event :=
  { id := 12
    nombre := "Charla C"
    descripcion := "C"
    tipo := CHARLA
    fecha_inicio := 1
    fecha_fin := 2
    lugar := "Sala C"
    activo := false
    destacado := true
    capacidad := none
    precio := none }

/-- A store exercising the listing view. -/
def stL : State :=
  { events := [evA, evB, evC]
    registrations := [⟨1, 11, 7, 0⟩, ⟨2, 11, 8, 1⟩]
    nextRegId := 3 }

/-! ## C1, C2, C6, C7, C8: Event business rules -/

/-- C1: for every store state (hence for every count of associated
registrations, including counts exceeding the capacity),
`espacios_disponibles` returns `none` when `capacidad` is unset and
otherwise `max 0 (capacidad - total_registrados)`. -/
theorem espacios_disponibles_spec (s : State) (e : Event) :
    (e.capacidad = none → espacios_disponibles s e = none) ∧
    (∀ c : Int, e.capacidad = some c →
      espacios_disponibles s e = some (max 0 (c - (total_registrados s e : Int)))) := by
  constructor
  · intro h
    simp [espacios_disponibles, h]
  · intro c h
    simp [espacios_disponibles, h]

theorem espacios_disponibles_spec_witness :
    ev1.capacidad = some 2 ∧ total_registrados st1 ev1 = 3 ∧
      espacios_disponibles st1 ev1 = some (max 0 (2 - (total_registrados st1 ev1 : Int))) :=
  ⟨rfl, by decide, (espacios_disponibles_spec st1 ev1).2 2 rfl⟩

/-- C2: `esta_lleno` is true iff `capacidad` is set and
`total_registrados ≥ capacidad`; equivalently iff `espacios_disponibles`
is defined and equals 0; an event with unset capacity is never full. -/
theorem esta_lleno_spec (s : State) (e : Event) :
    (esta_lleno s e = true ↔
      ∃ c : Int, e.capacidad = some c ∧ c ≤ (total_registrados s e : Int)) ∧
    (esta_lleno s e = true ↔ espacios_disponibles s e = some 0) ∧
    (e.capacidad = none → esta_lleno s e = false) := by
  cases h : e.capacidad with
  | none =>
    simp [esta_lleno, espacios_disponibles, h]
  | some c =>
    have hmax : max 0 (c - (total_registrados s e : Int)) = 0 ↔
        c ≤ (total_registrados s e : Int) := by omega
    refine ⟨?_, ?_, ?_⟩
    · simp [esta_lleno, espacios_disponibles, h, hmax]
    · simp [esta_lleno, espacios_disponibles, h]
    · intro hn
      exact Option.noConfusion hn

theorem esta_lleno_spec_witness :
    (esta_lleno st1 ev1 = true ↔
      ∃ c : Int, ev1.capacidad = some c ∧ c ≤ (total_registrados st1 ev1 : Int)) ∧
      esta_lleno st1 ev1 = true :=
  ⟨(esta_lleno_spec st1 ev1).1, by decide⟩

/-- C6: `esta_activo` is true iff the `activo` flag is set and `fecha_fin`
is at or after the current time; in particular it is false whenever
`fecha_fin` is in the past, regardless of the flag. -/
theorem esta_activo_spec (e : Event) (now : Int) :
    (esta_activo e now = true ↔ (e.activo = true ∧ now ≤ e.fecha_fin)) ∧
    (e.fecha_fin < now → esta_activo e now = false) := by
  constructor
  · simp [esta_activo]
  · intro h
    simp [esta_activo]
    intro _
    omega

theorem esta_activo_spec_witness :
    ev1.fecha_fin < 11 → esta_activo ev1 11 = false :=
  fun h => (esta_activo_spec ev1 11).2 h

/-- C7: saving an `Event` is rejected by validation exactly when
`fecha_fin ≤ fecha_inicio`, or `capacidad` is set below 1, or `precio` is
set negative; a save that succeeds therefore persists only events with
`fecha_inicio < fecha_fin`, `capacidad ≥ 1` when set and `precio ≥ 0`
when set. -/
theorem event_clean_spec (e : Event) :
    ((∃ m, event_clean e = Except.error m) ↔
      (e.fecha_fin ≤ e.fecha_inicio ∨ (∃ c, e.capacidad = some c ∧ c < 1) ∨
        (∃ p, e.precio = some p ∧ p < 0))) ∧
    (∀ s s2, event_save s e = Except.ok s2 →
      (e.fecha_inicio < e.fecha_fin ∧ (∀ c, e.capacidad = some c → 1 ≤ c) ∧
        (∀ p, e.precio = some p → 0 ≤ p)) ∧ s2.events = e :: s.events) := by
  have hok : event_clean e = Except.ok () ↔
      (e.fecha_inicio < e.fecha_fin ∧ (∀ c, e.capacidad = some c → 1 ≤ c) ∧
        (∀ p, e.precio = some p → 0 ≤ p)) := by
    unfold event_clean
    cases hc : e.capacidad <;> cases hp : e.precio <;>
      split_ifs with h1 h2 h3 <;>
      simp_all <;> first | omega | (intro h; linarith) | linarith
  constructor
  · constructor
    · intro ⟨m, hm⟩
      by_contra hcon
      push_neg at hcon
      have : event_clean e = Except.ok () := by
        apply hok.mpr
        refine ⟨by omega, ?_, ?_⟩
        · intro c hcs
          by_contra hlt
          exact absurd (hcon.2.1 c hcs) (by omega)
        · intro p hps
          by_contra hlt
          exact absurd (hcon.2.2 p hps) (by linarith)
      rw [this] at hm
      exact Except.noConfusion hm
    · intro hbad
      cases he : event_clean e with
      | error m => exact ⟨m, rfl⟩
      | ok u =>
        cases u
        have := hok.mp he
        rcases hbad with h | ⟨c, hcs, hclt⟩ | ⟨p, hps, hplt⟩
        · omega
        · exact absurd (this.2.1 c hcs) (by omega)
        · exact absurd (this.2.2 p hps) (by linarith)
  · intro s s2 hsave
    unfold event_save at hsave
    cases he : event_clean e with
    | error m =>
      rw [he] at hsave
      exact Except.noConfusion hsave
    | ok u =>
      cases u
      rw [he] at hsave
      refine ⟨hok.mp he, ?_⟩
      cases hsave
      rfl

theorem event_clean_spec_witness :
    event_save st1 ev1 = Except.ok { st1 with events := ev1 :: st1.events } ∧
      ev1.fecha_inicio < ev1.fecha_fin :=
  ⟨rfl, ((event_clean_spec ev1).2 st1 { st1 with events := ev1 :: st1.events } rfl).1.1⟩

/-- C8: `porcentaje_ocupacion` returns `none` when `capacidad` is unset,
`0` when `capacidad = 0`, and otherwise `100 * total_registrados /
capacidad`, a value that exceeds 100 whenever registrations exceed a
positive capacity. -/
theorem porcentaje_ocupacion_spec (s : State) (e : Event) :
    (e.capacidad = none → porcentaje_ocupacion s e = none) ∧
    (e.capacidad = some 0 → porcentaje_ocupacion s e = some 0) ∧
    (∀ c : Int, e.capacidad = some c → c ≠ 0 →
      porcentaje_ocupacion s e = some (100 * (total_registrados s e : ℚ) / (c : ℚ))) ∧
    (∀ c : Int, e.capacidad = some c → 0 < c → c < (total_registrados s e : Int) →
      ∃ q, porcentaje_ocupacion s e = some q ∧ 100 < q) := by
  refine ⟨?_, ?_, ?_, ?_⟩
  · intro h
    simp [porcentaje_ocupacion, h]
  · intro h
    simp [porcentaje_ocupacion, h]
  · intro c h hc
    simp only [porcentaje_ocupacion, h, if_neg hc]
    congr 1
    ring
  · intro c h hc hlt
    have hcq : (0 : ℚ) < (c : ℚ) := by exact_mod_cast hc
    have hltq : (c : ℚ) < (total_registrados s e : ℚ) := by exact_mod_cast hlt
    refine ⟨((total_registrados s e : ℚ) / (c : ℚ)) * 100, ?_, ?_⟩
    · simp [porcentaje_ocupacion, h, show c ≠ 0 by omega]
    · have h1 : (1 : ℚ) < (total_registrados s e : ℚ) / (c : ℚ) :=
        (one_lt_div hcq).mpr hltq
      nlinarith

theorem porcentaje_ocupacion_spec_witness :
    ev1.capacidad = some 2 ∧
      porcentaje_ocupacion st1 ev1 = some (100 * (total_registrados st1 ev1 : ℚ) / (2 : ℚ)) ∧
      porcentaje_ocupacion st1 ev1 = some 150 := by
  have h := (porcentaje_ocupacion_spec st1 ev1).2.2.1 2 rfl (by decide)
  refine ⟨rfl, h, ?_⟩
  rw [h, show total_registrados st1 ev1 = 3 from by decide]
  norm_num

/-! ## Helper lemmas about the register handler -/

theorem findActiveEvent_mem {s : State} {eid : Nat} {e : Event}
    (h : findActiveEvent s eid = some e) :
    e ∈ s.events ∧ e.id = eid ∧ e.activo = true := by
  unfold findActiveEvent at h
  have hmem := List.mem_of_find?_eq_some h
  have hp := List.find?_some h
  simp only [Bool.and_eq_true, beq_iff_eq] at hp
  exact ⟨hmem, hp.1, hp.2⟩

theorem registration_exists_iff {s : State} {eid uid : Nat} :
    registration_exists s eid uid = true ↔
      ∃ r ∈ s.registrations, r.evento = eid ∧ r.usuario = uid := by
  simp [registration_exists, List.any_eq_true]

theorem pair_mem_regPairs {s : State} {eid uid : Nat} :
    (eid, uid) ∈ s.registrations.map (fun r => (r.evento, r.usuario)) ↔
      registration_exists s eid uid = true := by
  rw [registration_exists_iff]
  simp only [List.mem_map, Prod.mk.injEq]

theorem pair_unique {s : State} (hnd : regPairsNodup s) {r1 r2 : EventRegistration}
    (h1 : r1 ∈ s.registrations) (h2 : r2 ∈ s.registrations)
    (he : r1.evento = r2.evento) (hu : r1.usuario = r2.usuario) : r1 = r2 :=
  List.inj_on_of_nodup_map hnd h1 h2 (by simp [he, hu])

theorem id_unique {s : State} (hnd : regIdsNodup s) {r1 r2 : EventRegistration}
    (h1 : r1 ∈ s.registrations) (h2 : r2 ∈ s.registrations)
    (hid : r1.id = r2.id) : r1 = r2 :=
  List.inj_on_of_nodup_map hnd h1 h2 hid

theorem firstRegistration_eq_none {s : State} {eid uid : Nat}
    (h : registration_exists s eid uid = false) :
    firstRegistration s eid uid = none := by
  unfold firstRegistration
  have hnil : s.registrations.filter (fun r => r.evento == eid && r.usuario == uid) = [] := by
    rw [List.filter_eq_nil]
    intro r hr
    intro hp
    have : registration_exists s eid uid = true := by
      rw [registration_exists_iff]
      simp only [Bool.and_eq_true, beq_iff_eq] at hp
      exact ⟨r, hr, hp.1, hp.2⟩
    rw [this] at h
    exact Bool.noConfusion h
  rw [hnil]
  rfl

theorem firstRegistration_eq_some {s : State} {eid uid : Nat} {r : EventRegistration}
    (h : firstRegistration s eid uid = some r) :
    r ∈ s.registrations ∧ r.evento = eid ∧ r.usuario = uid := by
  unfold firstRegistration at h
  cases hl : List.insertionSort (fun a b => b.registrado_en ≤ a.registrado_en)
      (s.registrations.filter (fun x => x.evento == eid && x.usuario == uid)) with
  | nil =>
    rw [hl] at h
    exact Option.noConfusion h
  | cons x xs =>
    rw [hl] at h
    have hx : r = x := by
      simpa using h.symm
    have hmem : r ∈ List.insertionSort (fun a b => b.registrado_en ≤ a.registrado_en)
        (s.registrations.filter (fun x => x.evento == eid && x.usuario == uid)) := by
      rw [hl, hx]
      exact List.mem_cons_self x xs
    have hmemf := (List.mem_insertionSort _).mp hmem
    have := List.mem_filter.mp hmemf
    simp only [Bool.and_eq_true, beq_iff_eq] at this
    exact ⟨this.1, this.2.1, this.2.2⟩

theorem firstRegistration_isSome {s : State} {eid uid : Nat}
    (h : registration_exists s eid uid = true) :
    ∃ r, firstRegistration s eid uid = some r := by
  obtain ⟨r, hr, h1, h2⟩ := registration_exists_iff.mp h
  have hmem : r ∈ List.insertionSort (fun a b => b.registrado_en ≤ a.registrado_en)
      (s.registrations.filter (fun x => x.evento == eid && x.usuario == uid)) := by
    apply (List.mem_insertionSort _).mpr
    apply List.mem_filter.mpr
    exact ⟨hr, by simp [h1, h2]⟩
  unfold firstRegistration
  cases hl : List.insertionSort (fun a b => b.registrado_en ≤ a.registrado_en)
      (s.registrations.filter (fun x => x.evento == eid && x.usuario == uid)) with
  | nil =>
    rw [hl] at hmem
    exact absurd hmem (List.not_mem_nil r)
  | cons x xs =>
    exact ⟨x, rfl⟩

theorem registerPost_already {s : State} {uid eid : Nat} {now : Int} {e : Event}
    (hfind : findActiveEvent s eid = some e)
    (hreg : registration_exists s eid uid = true) :
    eventRegisterPost s true uid eid false now =
      (s, RegisterOutcome.redirectDetail Level.info (msg_ya_registrado e.nombre)) := by
  obtain ⟨-, hid, -⟩ := findActiveEvent_mem hfind
  unfold eventRegisterPost
  rw [hfind]
  simp [hid, hreg]

theorem registerPost_cancel_eq {s : State} {uid eid : Nat} {now : Int} {e : Event}
    (hfind : findActiveEvent s eid = some e) :
    eventRegisterPost s true uid eid true now =
      (match firstRegistration s eid uid with
        | some r =>
          ({ s with registrations := s.registrations.filter (fun x => x.id != r.id) },
            RegisterOutcome.redirectDetail Level.success (msg_cancelado e.nombre))
        | none => (s, RegisterOutcome.redirectDetail Level.info msg_sin_registro)) := by
  obtain ⟨-, hid, -⟩ := findActiveEvent_mem hfind
  unfold eventRegisterPost
  rw [hfind]
  simp [hid]

theorem regPairsNodup_filter (s : State) (p : EventRegistration → Bool)
    (h : regPairsNodup s) :
    regPairsNodup { s with registrations := s.registrations.filter p } := by
  unfold regPairsNodup at *
  exact List.Nodup.sublist (List.Sublist.map _ (List.filter_sublist _)) h

theorem registerPost_unauth_eq {s : State} {uid eid : Nat} {now : Int} {cancel : Bool} :
    eventRegisterPost s false uid eid cancel now =
      (s, RegisterOutcome.redirectLogin Level.error msg_login_requerido) := by
  unfold eventRegisterPost
  simp

theorem registerPost_notFound_eq {s : State} {uid eid : Nat} {now : Int} {cancel : Bool}
    (hnone : findActiveEvent s eid = none) :
    eventRegisterPost s true uid eid cancel now = (s, RegisterOutcome.notFound) := by
  unfold eventRegisterPost
  rw [hnone]
  simp

theorem registerPost_reject_eq {s : State} {uid eid : Nat} {now : Int} {e : Event}
    (hfind : findActiveEvent s eid = some e)
    (hex : registration_exists s eid uid = false)
    (hp : puede_registrarse s e now = false) :
    eventRegisterPost s true uid eid false now =
      (s, RegisterOutcome.redirectDetail Level.error
        (if esta_lleno s e then msg_evento_lleno e.nombre else msg_no_acepta e.nombre)) := by
  obtain ⟨-, hid, -⟩ := findActiveEvent_mem hfind
  unfold eventRegisterPost
  rw [hfind]
  simp [hid, hex, hp]
  split_ifs <;> rfl

theorem registerPost_create_eq {s : State} {uid eid : Nat} {now : Int} {e : Event}
    (hfind : findActiveEvent s eid = some e)
    (hex : registration_exists s eid uid = false)
    (hp : puede_registrarse s e now = true) :
    eventRegisterPost s true uid eid false now =
      ({ s with
          registrations := ⟨s.nextRegId, e.id, uid, now⟩ :: s.registrations
          nextRegId := s.nextRegId + 1 },
        RegisterOutcome.redirectDetail Level.success (msg_registrado e.nombre)) := by
  obtain ⟨-, hid, -⟩ := findActiveEvent_mem hfind
  unfold eventRegisterPost registration_create registration_clean
  rw [hfind]
  simp [hid, hex, hp]

theorem registerPost_preserves_pairsNodup (s : State) (auth : Bool) (uid eid : Nat)
    (cancel : Bool) (now : Int) (h : regPairsNodup s) :
    regPairsNodup (eventRegisterPost s auth uid eid cancel now).1 := by
  cases auth with
  | false =>
    rw [registerPost_unauth_eq]
    exact h
  | true =>
  cases hfind : findActiveEvent s eid with
  | none =>
    rw [registerPost_notFound_eq hfind]
    exact h
  | some e =>
  cases cancel with
  | true =>
    rw [@registerPost_cancel_eq s uid eid now e hfind]
    cases hfr : firstRegistration s eid uid with
    | some r =>
      exact regPairsNodup_filter s _ h
    | none =>
      exact h
  | false =>
  cases hex : registration_exists s eid uid with
  | true =>
    rw [registerPost_already hfind hex]
    exact h
  | false =>
  cases hp : puede_registrarse s e now with
  | false =>
    rw [registerPost_reject_eq hfind hex hp]
    exact h
  | true =>
    obtain ⟨-, hid, -⟩ := findActiveEvent_mem hfind
    rw [registerPost_create_eq hfind hex hp]
    unfold regPairsNodup at h ⊢
    refine List.nodup_cons.mpr ⟨?_, h⟩
    intro hmem
    have h2 := pair_mem_regPairs.mp hmem
    rw [hid] at h2
    rw [h2] at hex
    exact Bool.noConfusion hex

/-! ## C3, C4, C10: the register/cancel handler -/

/-- C3 counterexample: in a store satisfying the at-most-one-registration
invariant, user 7 is registered on event 2, yet an authenticated
registration request yields a not-found outcome — not an informational
one — because the event's `activo` flag is unset. -/
theorem register_duplicate_counterexample :
    regPairsNodup stC3 ∧ registration_exists stC3 2 7 = true ∧
      eventRegisterPost stC3 true 7 2 false 0 = (stC3, RegisterOutcome.notFound) ∧
      isInfoOutcome (eventRegisterPost stC3 true 7 2 false 0).2 = false := by
  refine ⟨?_, by decide, by decide, by decide⟩
  unfold regPairsNodup
  decide

/-- C3 (amended): in every state with at most one registration per
(evento, usuario) pair, an authenticated registration request for a pair
that already has a registration leaves the state unchanged; when the event
is found with its `activo` flag set the outcome is the informational
already-registered message, and when it is not found the outcome is
not-found; and the handler — for any authentication, any pair and either
action — preserves the at-most-one-registration invariant, so no reachable
state holds two registrations for one pair. -/
theorem register_duplicate_spec (s : State) (uid eid : Nat) (now : Int)
    (hinv : regPairsNodup s) (hreg : registration_exists s eid uid = true) :
    (eventRegisterPost s true uid eid false now).1 = s ∧
    (∀ e, findActiveEvent s eid = some e →
      eventRegisterPost s true uid eid false now =
        (s, RegisterOutcome.redirectDetail Level.info (msg_ya_registrado e.nombre))) ∧
    (findActiveEvent s eid = none →
      eventRegisterPost s true uid eid false now = (s, RegisterOutcome.notFound)) ∧
    (∀ auth cancel, regPairsNodup (eventRegisterPost s auth uid eid cancel now).1) := by
  refine ⟨?_, ?_, ?_, ?_⟩
  · cases hfind : findActiveEvent s eid with
    | none => rw [registerPost_notFound_eq hfind]
    | some e => rw [registerPost_already hfind hreg]
  · intro e hfind
    exact registerPost_already hfind hreg
  · intro hnone
    exact registerPost_notFound_eq hnone
  · intro auth cancel
    exact registerPost_preserves_pairsNodup s auth uid eid cancel now hinv

theorem register_duplicate_spec_witness :
    regPairsNodup st1 ∧ registration_exists st1 1 7 = true ∧
      eventRegisterPost st1 true 7 1 false 3 =
        (st1, RegisterOutcome.redirectDetail Level.info (msg_ya_registrado ev1.nombre)) := by
  have h := register_duplicate_spec st1 7 1 3 (by unfold regPairsNodup; decide) (by decide)
  exact ⟨by unfold regPairsNodup; decide, by decide, h.2.1 ev1 rfl⟩

/-- C4 counterexample: user 7 has a registration on event 2, but the
cancel action yields a not-found error — not a success nor an
informational message — and removes nothing, because the event's `activo`
flag is unset. -/
theorem cancel_counterexample :
    registration_exists stC3 2 7 = true ∧
      eventRegisterPost stC3 true 7 2 true 0 = (stC3, RegisterOutcome.notFound) ∧
      registration_exists (eventRegisterPost stC3 true 7 2 true 0).1 2 7 = true ∧
      isSuccessOutcome (eventRegisterPost stC3 true 7 2 true 0).2 = false ∧
      isInfoOutcome (eventRegisterPost stC3 true 7 2 true 0).2 = false := by
  refine ⟨by decide, by decide, by decide, by decide, by decide⟩

/-- C4 (amended): for every event that is found with its `activo` flag set
and every authenticated user, the cancel action removes the (event, user)
registration whenever one exists, with a success message, leaving every
other registration and the events untouched; when no registration exists
it is a no-op with an informational message; when the event is not found
active the request yields not-found with the state unchanged. -/
theorem cancel_spec (s : State) (uid eid : Nat) (now : Int) (e : Event)
    (hpairs : regPairsNodup s) (hids : regIdsNodup s)
    (hfind : findActiveEvent s eid = some e) :
    (registration_exists s eid uid = true →
      isSuccessOutcome (eventRegisterPost s true uid eid true now).2 = true ∧
      (eventRegisterPost s true uid eid true now).1.events = s.events ∧
      registration_exists (eventRegisterPost s true uid eid true now).1 eid uid = false ∧
      (∀ r ∈ s.registrations, ¬(r.evento = eid ∧ r.usuario = uid) →
        r ∈ (eventRegisterPost s true uid eid true now).1.registrations) ∧
      (∀ r ∈ (eventRegisterPost s true uid eid true now).1.registrations,
        r ∈ s.registrations)) ∧
    (registration_exists s eid uid = false →
      eventRegisterPost s true uid eid true now =
        (s, RegisterOutcome.redirectDetail Level.info msg_sin_registro)) ∧
    (∀ eid2, findActiveEvent s eid2 = none →
      eventRegisterPost s true uid eid2 true now = (s, RegisterOutcome.notFound)) := by
  refine ⟨?_, ?_, ?_⟩
  · intro hex
    obtain ⟨r, hfr⟩ := firstRegistration_isSome hex
    obtain ⟨hrmem, hre, hru⟩ := firstRegistration_eq_some hfr
    rw [@registerPost_cancel_eq s uid eid now e hfind, hfr]
    refine ⟨rfl, rfl, ?_, ?_, ?_⟩
    · cases hb : registration_exists
          { s with registrations := s.registrations.filter (fun x => x.id != r.id) } eid uid with
      | false => rfl
      | true =>
        exfalso
        obtain ⟨q, hq, hq1, hq2⟩ := registration_exists_iff.mp hb
        obtain ⟨hqmem, hqid⟩ := List.mem_filter.mp hq
        have hqr : q = r := pair_unique hpairs hqmem hrmem (hq1.trans hre.symm) (hq2.trans hru.symm)
        rw [hqr] at hqid
        simp at hqid
    · intro q hq hnp
      apply List.mem_filter.mpr
      refine ⟨hq, ?_⟩
      simp only [bne_iff_ne, ne_eq, decide_eq_true_eq]
      intro hqid
      have hqr : q = r := id_unique hids hq hrmem hqid
      rw [hqr] at hnp
      exact hnp ⟨hre, hru⟩
    · intro q hq
      exact (List.mem_filter.mp hq).1
  · intro hex
    rw [@registerPost_cancel_eq s uid eid now e hfind, firstRegistration_eq_none hex]
  · intro eid2 hnone
    exact registerPost_notFound_eq hnone

theorem cancel_spec_witness :
    registration_exists st1 1 7 = true ∧
      isSuccessOutcome (eventRegisterPost st1 true 7 1 true 0).2 = true ∧
      registration_exists (eventRegisterPost st1 true 7 1 true 0).1 1 7 = false ∧
      registration_exists (eventRegisterPost st1 true 7 1 true 0).1 1 8 = true := by
  have h := (cancel_spec st1 7 1 0 ev1 (by unfold regPairsNodup; decide)
    (by unfold regIdsNodup; decide) rfl).1 (by decide)
  exact ⟨by decide, h.1, h.2.2.1, by decide⟩

/-- C10: for an authenticated user already registered on an event found
with its `activo` flag set, a registration request yields the
informational already-registered outcome and changes no state — the
already-registered check runs before the full and not-accepting checks,
with no hypothesis on the event being open, full, or ended. -/
theorem register_already_priority_spec (s : State) (uid eid : Nat) (now : Int) (e : Event)
    (hfind : findActiveEvent s eid = some e)
    (hreg : registration_exists s eid uid = true) :
    (eventRegisterPost s true uid eid false now).1 = s ∧
    (eventRegisterPost s true uid eid false now).2 =
      RegisterOutcome.redirectDetail Level.info (msg_ya_registrado e.nombre) := by
  rw [registerPost_already hfind hreg]
  exact ⟨rfl, rfl⟩

theorem register_already_priority_spec_witness :
    esta_lleno stFull evFull = true ∧ esta_activo evFull 0 = false ∧
      puede_registrarse stFull evFull 0 = false ∧
      registration_exists stFull 4 7 = true ∧
      (eventRegisterPost stFull true 7 4 false 0).1 = stFull ∧
      (eventRegisterPost stFull true 7 4 false 0).2 =
        RegisterOutcome.redirectDetail Level.info (msg_ya_registrado evFull.nombre) := by
  have h := register_already_priority_spec stFull 7 4 0 evFull rfl (by decide)
  exact ⟨by decide, by decide, by decide, by decide, h.1, h.2⟩

/-! ## C5: the detail handler -/

/-- C5 counterexample: `evPast` is flagged active but already past its end
time at time 0 — inactive in the claim's sense — yet the detail request
succeeds instead of returning 404. -/
theorem detail_counterexample :
    evPast ∈ stC5.events ∧ evPast.id = 5 ∧ esta_activo evPast 0 = false ∧
      eventDetailGet stC5 false 0 5 = DetailOutcome.ok false ∧
      eventDetailGet stC5 false 0 5 ≠ DetailOutcome.notFound := by
  refine ⟨by decide, by decide, by decide, by decide, by decide⟩

/-- C5 (amended): the detail request returns not-found iff no stored event
has the requested id together with the `activo` flag set — the end time is
never consulted — and otherwise succeeds, reporting registered exactly
when the user is authenticated and a registration row for the pair
exists. -/
theorem detail_spec (s : State) (auth : Bool) (uid eid : Nat) :
    (eventDetailGet s auth uid eid = DetailOutcome.notFound ↔
      ∀ e ∈ s.events, ¬(e.id = eid ∧ e.activo = true)) ∧
    (∀ b, eventDetailGet s auth uid eid = DetailOutcome.ok b →
      (b = true ↔ (auth = true ∧ registration_exists s eid uid = true))) := by
  have hiff : findActiveEvent s eid = none ↔
      ∀ e ∈ s.events, ¬(e.id = eid ∧ e.activo = true) := by
    unfold findActiveEvent
    rw [List.find?_eq_none]
    constructor
    · intro h e he hee
      have := h e he
      simp [hee.1, hee.2] at this
    · intro h e he hp
      simp only [Bool.and_eq_true, beq_iff_eq] at hp
      exact h e he ⟨hp.1, hp.2⟩
  constructor
  · cases hf : findActiveEvent s eid with
    | none =>
      unfold eventDetailGet
      rw [hf]
      simpa using hiff.mp hf
    | some e =>
      obtain ⟨hmem, hid, hact⟩ := findActiveEvent_mem hf
      unfold eventDetailGet
      rw [hf]
      constructor
      · intro hcon
        exact DetailOutcome.noConfusion hcon
      · intro hall
        exact absurd ⟨hid, hact⟩ (hall e hmem)
  · intro b hb
    unfold eventDetailGet at hb
    cases hf : findActiveEvent s eid with
    | none =>
      rw [hf] at hb
      exact DetailOutcome.noConfusion hb
    | some e =>
      rw [hf] at hb
      obtain ⟨-, hid, -⟩ := findActiveEvent_mem hf
      have hbe : (auth && registration_exists s e.id uid) = b := by
        injection hb
      rw [← hbe, hid]
      simp [Bool.and_eq_true]

theorem detail_spec_witness :
    eventDetailGet st1 true 7 9 = DetailOutcome.notFound ∧
      (true = true ↔ (true = true ∧ registration_exists st1 1 7 = true)) := by
  constructor
  · exact (detail_spec st1 true 7 9).1.mpr (by decide)
  · exact (detail_spec st1 true 7 1).2 true (by decide)

/-! ## C9: the listing handler -/

/-- C9: for every listing request with an optional type filter, the
featured sublist holds at most 4 events, the upcoming sublist at most 6 —
all active, matching the filter, starting at or after now, and ordered by
start time — the popular sublist at most 5 events drawn from all active
events, ordered most-registered-first and independent of the type filter,
and the featured sublist holds only active featured events matching the
filter. -/
theorem eventList_spec (s : State) (tipo : String) (now : Int) :
    (eventListGet s tipo now).destacados.length ≤ 4 ∧
    (eventListGet s tipo now).upcoming.length ≤ 6 ∧
    (eventListGet s tipo now).populares.length ≤ 5 ∧
    (∀ e ∈ (eventListGet s tipo now).destacados,
      e ∈ s.events ∧ e.activo = true ∧ e.destacado = true ∧ tipoMatches tipo e = true) ∧
    (∀ e ∈ (eventListGet s tipo now).upcoming,
      e ∈ s.events ∧ e.activo = true ∧ now ≤ e.fecha_inicio ∧ tipoMatches tipo e = true) ∧
    List.Pairwise (fun a b => a.fecha_inicio ≤ b.fecha_inicio)
      (eventListGet s tipo now).upcoming ∧
    (∀ e ∈ (eventListGet s tipo now).populares, e ∈ s.events ∧ e.activo = true) ∧
    List.Pairwise (fun a b => num_registros s b ≤ num_registros s a)
      (eventListGet s tipo now).populares ∧
    (∀ tipo2, (eventListGet s tipo2 now).populares = (eventListGet s tipo now).populares) := by
  haveI hto1 : IsTotal Event (fun a b => a.fecha_inicio ≤ b.fecha_inicio) :=
    ⟨fun a b => le_total _ _⟩
  haveI htr1 : IsTrans Event (fun a b => a.fecha_inicio ≤ b.fecha_inicio) :=
    ⟨fun a b c hab hbc => le_trans hab hbc⟩
  haveI hto2 : IsTotal Event (fun a b => num_registros s b ≤ num_registros s a) :=
    ⟨fun a b => le_total _ _⟩
  haveI htr2 : IsTrans Event (fun a b => num_registros s b ≤ num_registros s a) :=
    ⟨fun a b c hab hbc => le_trans hbc hab⟩
  refine ⟨?_, ?_, ?_, ?_, ?_, ?_, ?_, ?_, ?_⟩
  · exact List.length_take_le 4 _
  · exact List.length_take_le 6 _
  · exact List.length_take_le 5 _
  · intro e he
    have h1 := (List.mem_insertionSort _).mp (List.take_subset _ _ he)
    obtain ⟨h2, h3⟩ := List.mem_filter.mp h1
    obtain ⟨h4, h5⟩ := List.mem_filter.mp h2
    simp only [Bool.and_eq_true] at h5
    exact ⟨h4, h5.1, h3, h5.2⟩
  · intro e he
    have h1 := (List.mem_insertionSort _).mp (List.take_subset _ _ he)
    obtain ⟨h2, h3⟩ := List.mem_filter.mp h1
    obtain ⟨h4, h5⟩ := List.mem_filter.mp h2
    simp only [Bool.and_eq_true] at h5
    simp only [decide_eq_true_eq] at h3
    exact ⟨h4, h5.1, h3, h5.2⟩
  · exact List.Pairwise.sublist (List.take_sublist _ _) (List.sorted_insertionSort _ _)
  · intro e he
    have h1 := (List.mem_insertionSort _).mp (List.take_subset _ _ he)
    obtain ⟨h2, h3⟩ := List.mem_filter.mp h1
    exact ⟨h2, h3⟩
  · exact List.Pairwise.sublist (List.take_sublist _ _) (List.sorted_insertionSort _ _)
  · intro tipo2
    rfl

theorem eventList_spec_witness :
    (eventListGet stL CHARLA 0).destacados.length ≤ 4 ∧
      (eventListGet stL noTipo 0).populares = (eventListGet stL CHARLA 0).populares ∧
      (eventListGet stL CHARLA 0).destacados = [evA] ∧
      (eventListGet stL noTipo 0).upcoming = [evB, evA] := by
  have h := eventList_spec stL CHARLA 0
  exact ⟨h.1, h.2.2.2.2.2.2.2.2 noTipo, by decide, by decide⟩

end SmartEvents
